import Mathlib

/-!
Shallow embedding of the micro-rdk canary scripts
(`canary/daily_summary.py`, `canary/canary_ota.py`, `canary/canary_test.py`).

Numeric values that Python holds as `int`/`float` are modelled as `Nat`/`Rat`;
the quantities the claims touch are exact in `Rat`.  Python's `x / 0` raises
`ZeroDivisionError`, so any division whose denominator can be zero is embedded
behind an explicit zero test producing an error value.  Python's builtin
`round` uses banker's rounding (round half to even); `pyRound` reproduces it.
-/

deriving instance DecidableEq for Except

namespace Canary

/-- Python's builtin `round(q)` to the nearest integer, ties to even. -/
def pyRound (q : ℚ) : ℤ :=
  let l : ℤ := ⌊q⌋
  let frac : ℚ := q - l
  if frac < 1/2 then l
  else if 1/2 < frac then l + 1
  else if l % 2 = 0 then l else l + 1

/-- Python's `round(q, 3)`: round to 3 decimal digits, ties to even. -/
def round3 (q : ℚ) : ℚ := (pyRound (q * 1000) : ℚ) / 1000

/-! ## daily_summary.py -/

/-- Constant `FAILURE_ACCEPTABILITY = 0.2` (daily_summary.py line 11). -/
def FAILURE_ACCEPTABILITY : ℚ := 2/10

/-- One document of the `raw_results` collection, with the fields
`get_summary_for_platform` reads.  The Mongo query (timestamp in day,
`sdk_type = platform`) is modelled by passing the already-filtered
`result_set` list to the function. -/
structure RawRecord where
  connection_success : Bool
  connection_latency_ms : ℚ
  connection_attempts : ℕ
  board_api_successes : ℕ
  board_api_failures : ℕ
  sdk_version : String
  deriving DecidableEq, Repr

/-- The accumulator of the `for record in result_set` loop
(daily_summary.py lines 43-61). -/
structure AggState where
  latency_sum : ℚ
  successes : ℕ
  connection_failures : ℕ
  board_api_successes : ℕ
  board_api_failures : ℕ
  connection_attempts : ℕ
  num_results : ℕ
  sdk_version : String
  deriving DecidableEq, Repr

def initAggState : AggState :=
  { latency_sum := 0, successes := 0, connection_failures := 0,
    board_api_successes := 0, board_api_failures := 0,
    connection_attempts := 0, num_results := 0, sdk_version := "" }

/-- One iteration of the aggregation loop (daily_summary.py lines 51-61). -/
def aggStep (st : AggState) (record : RawRecord) : AggState :=
  let st := { st with sdk_version := record.sdk_version,
                      num_results := st.num_results + 1 }
  if record.connection_success then
    { st with latency_sum := st.latency_sum + record.connection_latency_ms,
              connection_attempts := st.connection_attempts + record.connection_attempts,
              successes := st.successes + 1,
              board_api_successes := st.board_api_successes + record.board_api_successes,
              board_api_failures := st.board_api_failures + record.board_api_failures }
  else
    { st with connection_failures := st.connection_failures + 1 }

/-- The `summary` dict built at daily_summary.py lines 70-78 (the `date` day
key is not claim-relevant and is left out). -/
structure Summary where
  successes : ℕ
  robot_connection_failures : ℕ
  board_api_failures : ℕ
  avg_connection_latency_ms : ℚ
  avg_connection_attempts : ℚ
  sdk_version : String
  deriving DecidableEq, Repr

/-- Exceptions `daily_summary.py` can raise, by raise site. -/
inductive DErr where
  /-- Raise site `raise Exception("no raw canary results found ...")` (line 64). -/
  | noData
  /-- Python `ZeroDivisionError` (line 80, `board_api_failures / total_board_calls`). -/
  | zeroDivision
  /-- the un-caught `raise Exception(msg)` after a successful alert post
  (lines 94 and 103). -/
  | thresholdBreach (which : String)
  /-- Raise site `raise Exception("failure to post to Slack ...")` (lines 96 and 105). -/
  | slackPostFailure (which : String)
  deriving DecidableEq, Repr

/-- Function `get_summary_for_platform` (daily_summary.py lines 37-81), over the
already-filtered day/platform record list.  Returns the tuple
`(summary, failure_rate, board_failure_rate, sdk_version)`. -/
def get_summary_for_platform (result_set : List RawRecord) :
    Except DErr (Summary × ℚ × ℚ × String) :=
  let st := result_set.foldl aggStep initAggState
  if st.num_results = 0 then
    .error .noData
  else
    let avg_connection_latency_ms : ℚ :=
      if st.successes ≠ 0 then st.latency_sum / st.successes else 0
    let avg_connection_attempts : ℚ := (st.connection_attempts : ℚ) / st.num_results
    let total_board_calls : ℕ := st.board_api_successes + st.board_api_failures
    let summary : Summary :=
      { successes := st.successes,
        robot_connection_failures := st.connection_failures,
        board_api_failures := st.board_api_failures,
        avg_connection_latency_ms := avg_connection_latency_ms,
        avg_connection_attempts := avg_connection_attempts,
        sdk_version := st.sdk_version }
    let failure_rate : ℚ := round3 ((st.connection_failures : ℚ) / st.num_results)
    -- Python: `round(board_api_failures / total_board_calls)` raises
    -- ZeroDivisionError when total_board_calls == 0; there is no guard.
    if total_board_calls = 0 then
      .error .zeroDivision
    else
      let board_failure_rate : ℚ := (pyRound ((st.board_api_failures : ℚ) / total_board_calls) : ℚ)
      .ok (summary, failure_rate, board_failure_rate, st.sdk_version)

/-- Function `post_to_slack_on_failure` (daily_summary.py lines 83-105).  `slackOk`
models whether `api_result.validate()` succeeds.  When a rate breaches the
threshold the function always raises: the breach message itself when the post
validated (the `raise Exception(msg)` is not a `SlackApiError`, so the
`except` clause does not catch it), the post-failure wrapper otherwise. -/
def post_to_slack_on_failure (failure_rate board_failure_rate : ℚ)
    (slackOk : Bool) : Except DErr Unit :=
  if FAILURE_ACCEPTABILITY < failure_rate then
    if slackOk then .error (.thresholdBreach "connection")
    else .error (.slackPostFailure "connection")
  else if FAILURE_ACCEPTABILITY < board_failure_rate then
    if slackOk then .error (.thresholdBreach "board")
    else .error (.slackPostFailure "board")
  else
    .ok ()

/-- Result of a `daily_summary.main` run: the process outcome and the
summaries inserted into `daily_summaries`, in insertion order. -/
structure DailyTrace where
  outcome : Except DErr Unit
  inserted : List Summary
  deriving DecidableEq, Repr

/-- Function `main` (daily_summary.py lines 17-35) over the two platforms `GO` and
`PYTHON`.  `rawGo`/`rawPy` are the per-platform query results, `slackGo`/
`slackPy` the per-platform Slack health.  An exception from
`get_summary_for_platform` (or the insert) propagates at once; an exception
from `post_to_slack_on_failure` is caught, stored in `exc` (overwriting any
earlier one) and re-raised after the loop. -/
def dailyMain (rawGo rawPy : List RawRecord) (slackGo slackPy : Bool) : DailyTrace :=
  match get_summary_for_platform rawGo with
  | .error e => { outcome := .error e, inserted := [] }
  | .ok (summaryGo, frGo, bfrGo, _) =>
    let excGo : Option DErr :=
      match post_to_slack_on_failure frGo bfrGo slackGo with
      | .error e => some e
      | .ok _ => none
    match get_summary_for_platform rawPy with
    | .error e => { outcome := .error e, inserted := [summaryGo] }
    | .ok (summaryPy, frPy, bfrPy, _) =>
      let exc : Option DErr :=
        match post_to_slack_on_failure frPy bfrPy slackPy with
        | .error e => some e
        | .ok _ => excGo
      { outcome := match exc with
                   | some e => .error e
                   | none => .ok (),
        inserted := [summaryGo, summaryPy] }

/-! ## canary_ota.py -/

/-- Exceptions `canary_ota.py` can raise.  Both explicit `raise` sites of
`main` are preceded by `post_to_slack(msg, True)`, which itself always
raises (a success of `api_result.validate()` reaches `raise Exception(msg)`
inside the `try`, which the blanket `except` re-wraps), so every failure of
`main` surfaces as the wrapper exception of line 96, carrying the
originating message. -/
inductive OtaErr where
  /-- Raise site `raise Exception("failure to post to Slack, error message was ...")`
  (canary_ota.py line 96); `msg` is the originating message. -/
  | slackWrapped (msg : String)
  deriving DecidableEq, Repr

/-- A `robot_config["services"]` entry, with the fields `main` touches. -/
structure ServiceEntry where
  model : String
  url : String
  version : String
  deriving DecidableEq, Repr

/-- Function `post_to_slack` (canary_ota.py lines 83-96).  `slackOk` models whether
`api_result.validate()` succeeds.  With `is_error = True` the function
raises on every path; with `is_error = False` it raises exactly when the
post fails to validate. -/
def post_to_slack (msg : String) (is_error : Bool) (slackOk : Bool) :
    Except OtaErr Unit :=
  if slackOk then
    if is_error then .error (.slackWrapped msg) else .ok ()
  else
    .error (.slackWrapped msg)

/-- The copy-and-mutate loop of canary_ota.py lines 47-56: update the url
and version of the first `"ota_service"` entry (the loop `break`s after the
first match) and report whether one was found. -/
def updateFirstOta (services : List ServiceEntry) (url tag_name : String) :
    List ServiceEntry × Bool :=
  match services with
  | [] => ([], false)
  | s :: rest =>
    if s.model = "ota_service" then
      ({ s with url := url, version := tag_name } :: rest, true)
    else
      let (rest', found) := updateFirstOta rest url tag_name
      (s :: rest', found)

/-- The verification loop of canary_ota.py lines 72-78: scan the re-fetched
services and return the first `"ota_service"` entry whose url or version
does not match what was written (no `break`: every matching-model entry is
checked). -/
def findOtaMismatch (services : List ServiceEntry) (url tag_name : String) :
    Option ServiceEntry :=
  match services with
  | [] => none
  | s :: rest =>
    if s.model = "ota_service" ∧ (s.url ≠ url ∨ s.version ≠ tag_name) then
      some s
    else
      findOtaMismatch rest url tag_name

/-- Inputs of a `canary_ota.main` run: the fetched configuration's services,
the services seen by the re-fetch after the write (a fresh read of the
store), the target url and tag, and Slack health.  The dial is taken as
succeeding: the run only reaches the update logic once `connect` has
returned. -/
structure OtaEnv where
  services : List ServiceEntry
  refetchedServices : List ServiceEntry
  url : String
  tag_name : String
  slackOk : Bool
  deriving DecidableEq, Repr

/-- Observable outcome of a `canary_ota.main` run: the process result,
whether `viam_client.close()` ran, and the configuration written by
`update_robot_part` (`none` when no write happened). -/
structure OtaTrace where
  outcome : Except OtaErr Unit
  closed : Bool
  wrote : Option (List ServiceEntry)
  deriving DecidableEq, Repr

/-- Function `main` (canary_ota.py lines 27-81) from the point the connection is
established.  Mirrors the source's exit paths: missing-entry failure closes
the client then raises; a verification mismatch raises without closing
(line 80's `close` is never reached); the success path closes then posts. -/
def otaMain (env : OtaEnv) : OtaTrace :=
  let (updated_config, service_updated) := updateFirstOta env.services env.url env.tag_name
  if ¬service_updated then
    -- lines 58-62: close, then post_to_slack(msg, True) raises; the
    -- following `raise Exception(msg)` is dead code.
    { outcome := .error (.slackWrapped "failed to find or update ota service config"),
      closed := true,
      wrote := none }
  else
    -- lines 64-68: update_robot_part writes updated_config.
    match findOtaMismatch env.refetchedServices env.url env.tag_name with
    | some _ =>
      -- lines 75-78: post_to_slack(msg, True) raises; close is not reached.
      { outcome := .error (.slackWrapped "ota service config does not reflect update"),
        closed := false,
        wrote := some updated_config }
    | none =>
      -- lines 80-81: close, then post the success message.
      { outcome := post_to_slack "OtaService config successfully updated" false env.slackOk,
        closed := true,
        wrote := some updated_config }

/-! ## The bounded-retry connect loop (canary_ota.py lines 15-25; the loop
at canary_test.py lines 49-61 has the same shape). -/

/-- Observable outcome of the retry loop: the result, how many dial attempts
were made, and how many `time.sleep(0.5)` calls ran. -/
structure ConnectTrace where
  result : Except String Unit
  attempts : ℕ
  sleeps : ℕ
  deriving DecidableEq, Repr

/-- The body of `for i in range(5)` from index `i` with `left` iterations
remaining (so the Python guard `i == 4` is `left = 1` here).  `dial i` is
the outcome of the i-th `ViamClient.create_from_dial_options` call.  On
success the loop returns at once (the trailing sleep is skipped); on a
non-final failure it sleeps 0.5s and retries; on the final failure it
re-raises that attempt's error. -/
def connectAux (dial : ℕ → Except String Unit) :
    ℕ → ℕ → ℕ → ConnectTrace
  | i, 0, sleeps => { result := .error "", attempts := i, sleeps := sleeps }
  | i, left + 1, sleeps =>
    match dial i with
    | .ok () => { result := .ok (), attempts := i + 1, sleeps := sleeps }
    | .error e =>
      if left = 0 then { result := .error e, attempts := i + 1, sleeps := sleeps }
      else connectAux dial (i + 1) left (sleeps + 1)

/-- Function `connect` (canary_ota.py lines 15-25): five bounded-retry dial attempts. -/
def connect (dial : ℕ → Except String Unit) : ConnectTrace :=
  connectAux dial 0 5 0

/-! ## canary_test.py: the 20-iteration hardware probe loop -/

/-- Exceptions of the probe run that the embedding distinguishes. -/
inductive TErr where
  /-- Python `ZeroDivisionError` at canary_test.py line 89
  (`sum(latencies_ms) / len(latencies_ms)` with an empty list). -/
  | zeroDivision
  deriving DecidableEq, Repr

/-- Behaviour of one probe iteration (canary_test.py lines 75-87).  A
latency is appended exactly when `set(True)` returned, so a failing
iteration may or may not contribute a latency depending on where it
failed: before the append (`get`/`set` raised) or after it (read-back
raised or returned low). -/
inductive IterOutcome where
  | success (latency : ℚ)
  | failNoLatency
  | failWithLatency (latency : ℚ)
  deriving DecidableEq, Repr

/-- The `for _ in range(20)` loop: each failure is caught by the
per-iteration `except`, counted in `board_api_failures`, and the loop
continues.  Returns `(board_api_successes, board_api_failures,
latencies_ms)`. -/
def probeLoop (outcomes : List IterOutcome) : ℕ × ℕ × List ℚ :=
  outcomes.foldl
    (fun acc o =>
      match o with
      | .success lat => (acc.1 + 1, acc.2.1, acc.2.2 ++ [lat])
      | .failNoLatency => (acc.1, acc.2.1 + 1, acc.2.2)
      | .failWithLatency lat => (acc.1, acc.2.1 + 1, acc.2.2 ++ [lat]))
    (0, 0, [])

/-- The fields of the persisted `default_item` that the probe loop fills
(canary_test.py lines 89-93; the numpy standard deviation of line 90 is not
claim-relevant and is left out). -/
structure ProbeRecord where
  board_api_successes : ℕ
  board_api_failures : ℕ
  board_api_avg_latency_ms : ℚ
  deriving DecidableEq, Repr

/-- The probe part of `canary_test.main` (lines 74-95): run the loop, then
compute the average latency — Python raises `ZeroDivisionError` when
`latencies_ms` is empty, and `coll.insert_one(default_item)` (line 95) is
then never reached — and otherwise persist the record. -/
def probeRun (outcomes : List IterOutcome) : Except TErr ProbeRecord :=
  let (board_api_successes, board_api_failures, latencies_ms) := probeLoop outcomes
  if latencies_ms.length = 0 then
    .error .zeroDivision
  else
    .ok { board_api_successes := board_api_successes,
          board_api_failures := board_api_failures,
          board_api_avg_latency_ms := round3 (latencies_ms.sum / latencies_ms.length) }

/-! ## Concrete inputs used to evaluate the embedded code -/

/-- A raw record of a run whose connection failed: the shape of
`default_item` as canary_test.py inserts it on connection failure
(lines 30-40 and 55-58). -/
def connFailureRec : RawRecord :=
  { connection_success := false, connection_latency_ms := 0, connection_attempts := 5,
    board_api_successes := 0, board_api_failures := 0, sdk_version := "v1" }

/-- A raw record of a successful run: 4 board API successes, 1 failure. -/
def okRec : RawRecord :=
  { connection_success := true, connection_latency_ms := 100, connection_attempts := 1,
    board_api_successes := 4, board_api_failures := 1, sdk_version := "v1" }

/-- A raw record of a successful run whose board rate is 1/4. -/
def quarterRec : RawRecord :=
  { connection_success := true, connection_latency_ms := 100, connection_attempts := 1,
    board_api_successes := 3, board_api_failures := 1, sdk_version := "v1" }

/-- An OTA environment whose re-fetched configuration still carries the old
url and version on its `"ota_service"` entry. -/
def envMismatch : OtaEnv :=
  { services := [⟨"ota_service", "u0", "v0"⟩],
    refetchedServices := [⟨"ota_service", "u0", "v0"⟩],
    url := "u1", tag_name := "v1", slackOk := true }

/-- An OTA environment whose configuration has no `"ota_service"` entry. -/
def envNoOta : OtaEnv :=
  { services := [⟨"rtc", "u0", "v0"⟩],
    refetchedServices := [⟨"rtc", "u0", "v0"⟩],
    url := "u1", tag_name := "v1", slackOk := true }

/-- An OTA environment whose re-fetch shows no `"ota_service"` entry at all. -/
def envOtaGone : OtaEnv :=
  { services := [⟨"ota_service", "u0", "v0"⟩],
    refetchedServices := [⟨"rtc", "u0", "v0"⟩],
    url := "u1", tag_name := "v1", slackOk := true }

/-- A dial oracle that fails twice, then succeeds. -/
def dialFailsTwice : ℕ → Except String Unit :=
  fun i => if i < 2 then .error "dial failed" else .ok ()

/-- A dial oracle that always fails, with a distinct error per attempt. -/
def dialAlwaysFails : ℕ → Except String Unit :=
  fun i => .error (String.append "attempt " (toString i))

/-- The per-attempt error messages of `dialAlwaysFails`. -/
def dialErrs : ℕ → String := fun i => String.append "attempt " (toString i)

/-- A day of Go-platform records whose connection failure rate is 1/2,
breaching the 0.2 threshold. -/
def rawGoBreach : List RawRecord := [okRec, connFailureRec]

/-- A day of Python-platform records with no failed connection. -/
def rawPyOk : List RawRecord := [okRec]

/-- The tuple `get_summary_for_platform` returns on `rawGoBreach`. -/
def goTuple : Summary × ℚ × ℚ × String :=
  ({ successes := 1, robot_connection_failures := 1, board_api_failures := 1,
     avg_connection_latency_ms := 100, avg_connection_attempts := 1/2,
     sdk_version := "v1" }, 1/2, 0, "v1")

/-- The tuple `get_summary_for_platform` returns on `rawPyOk`. -/
def pyTuple : Summary × ℚ × ℚ × String :=
  ({ successes := 1, robot_connection_failures := 0, board_api_failures := 1,
     avg_connection_latency_ms := 100, avg_connection_attempts := 1,
     sdk_version := "v1" }, 0, 0, "v1")

/-! ## Helper lemmas -/

/-- Behaviour of the retry loop when the dial fails exactly `k` times from
index `i` and then succeeds: it returns success after `k + 1` further
attempts and `k` further sleeps. -/
lemma connectAux_ok (dial : ℕ → Except String Unit) (e : ℕ → String) :
    ∀ (k i left sleeps : ℕ), k < left →
      (∀ j, j < k → dial (i + j) = .error (e (i + j))) →
      dial (i + k) = .ok () →
      connectAux dial i left sleeps =
        { result := .ok (), attempts := i + k + 1, sleeps := sleeps + k } := by
  intro k
  induction k with
  | zero =>
    intro i left sleeps hlt _ hsucc
    obtain ⟨left', rfl⟩ : ∃ l, left = l + 1 := ⟨left - 1, by omega⟩
    simp only [Nat.add_zero] at hsucc
    simp [connectAux, hsucc]
  | succ k ih =>
    intro i left sleeps hlt hfail hsucc
    obtain ⟨left', rfl⟩ : ∃ l, left = l + 1 := ⟨left - 1, by omega⟩
    have h0 : dial i = .error (e i) := by simpa using hfail 0 (by omega)
    have hleft' : ¬left' = 0 := by omega
    simp only [connectAux, h0]
    rw [if_neg hleft']
    rw [ih (i + 1) left' (sleeps + 1) (by omega)
      (fun j hj => by
        rw [show i + 1 + j = i + (j + 1) by omega]
        exact hfail (j + 1) (by omega))
      (by rw [show i + 1 + k = i + (k + 1) by omega]; exact hsucc)]
    rw [show i + 1 + k = i + (k + 1) by omega,
      show sleeps + 1 + k = sleeps + (k + 1) by omega]

/-- Behaviour of the retry loop when every dial in the window fails: the
error of the final attempt is re-raised, after one attempt and one sleep
per iteration except the final sleep. -/
lemma connectAux_err (dial : ℕ → Except String Unit) (e : ℕ → String) :
    ∀ (left i sleeps : ℕ), 0 < left →
      (∀ j, j < left → dial (i + j) = .error (e (i + j))) →
      connectAux dial i left sleeps =
        { result := .error (e (i + left - 1)), attempts := i + left,
          sleeps := sleeps + left - 1 } := by
  intro left
  induction left with
  | zero => intro i sleeps h; omega
  | succ l ih =>
    intro i sleeps _ hfail
    have h0 : dial i = .error (e i) := by simpa using hfail 0 (by omega)
    by_cases hl : l = 0
    · subst hl
      simp [connectAux, h0]
    · simp only [connectAux, h0]
      rw [if_neg hl]
      rw [ih (i + 1) (sleeps + 1) (by omega)
        (fun j hj => by
          rw [show i + 1 + j = i + (j + 1) by omega]
          exact hfail (j + 1) (by omega))]
      rw [show i + 1 + l = i + (l + 1) by omega,
        show sleeps + 1 + l = sleeps + (l + 1) by omega]

/-- When no service carries the `"ota_service"` model, the copy-and-mutate
loop leaves the configuration unchanged and reports no update. -/
lemma updateFirstOta_not_found (services : List ServiceEntry) (url tag_name : String)
    (h : ∀ s ∈ services, s.model ≠ "ota_service") :
    updateFirstOta services url tag_name = (services, false) := by
  induction services with
  | nil => rfl
  | cons s rest ih =>
    have hs : ¬s.model = "ota_service" := h s (by simp)
    simp only [updateFirstOta, if_neg hs]
    rw [ih (fun x hx => h x (by simp [hx]))]

/-- When some service carries the `"ota_service"` model, the copy-and-mutate
loop reports an update. -/
lemma updateFirstOta_found (services : List ServiceEntry) (url tag_name : String)
    (h : ∃ s ∈ services, s.model = "ota_service") :
    (updateFirstOta services url tag_name).2 = true := by
  induction services with
  | nil => simp at h
  | cons s rest ih =>
    by_cases hs : s.model = "ota_service"
    · simp [updateFirstOta, hs]
    · obtain ⟨x, hx, hxm⟩ := h
      have hxr : x ∈ rest := by
        rcases List.mem_cons.mp hx with h1 | h1
        · exact absurd (h1 ▸ hxm) hs
        · exact h1
      have := ih ⟨x, hxr, hxm⟩
      rcases hu : updateFirstOta rest url tag_name with ⟨rest', found⟩
      rw [hu] at this
      simp [updateFirstOta, hs, hu, this.symm]

/-- When no re-fetched service carries the `"ota_service"` model, the
verification loop finds no mismatch. -/
lemma findOtaMismatch_none (services : List ServiceEntry) (url tag_name : String)
    (h : ∀ s ∈ services, s.model ≠ "ota_service") :
    findOtaMismatch services url tag_name = none := by
  induction services with
  | nil => rfl
  | cons s rest ih =>
    have hs : ¬s.model = "ota_service" := h s (by simp)
    simp only [findOtaMismatch]
    rw [if_neg (by simp [hs])]
    exact ih (fun x hx => h x (by simp [hx]))

/-- The aggregation loop adds `connection_attempts` to the accumulator only
for records whose connection succeeded. -/
lemma foldl_aggStep_connection_attempts (l : List RawRecord) (st : AggState) :
    (l.foldl aggStep st).connection_attempts =
      st.connection_attempts +
        ((l.filter (fun r => r.connection_success)).map
          (fun r => r.connection_attempts)).sum := by
  induction l generalizing st with
  | nil => simp
  | cons r rest ih =>
    rw [List.foldl_cons, ih]
    by_cases hr : r.connection_success
    · simp [aggStep, hr, List.filter_cons]
      omega
    · simp [aggStep, hr, List.filter_cons]

/-- The aggregation loop counts every record in `num_results`. -/
lemma foldl_aggStep_num_results (l : List RawRecord) (st : AggState) :
    (l.foldl aggStep st).num_results = st.num_results + l.length := by
  induction l generalizing st with
  | nil => simp
  | cons r rest ih =>
    rw [List.foldl_cons, ih]
    by_cases hr : r.connection_success
    · simp [aggStep, hr]
      omega
    · simp [aggStep, hr]
      omega

/-- Evaluation of the aggregator on the breaching Go day. -/
lemma get_summary_rawGoBreach :
    get_summary_for_platform rawGoBreach = .ok goTuple := by
  simp only [get_summary_for_platform, rawGoBreach, okRec, connFailureRec,
    aggStep, initAggState, List.foldl_cons, List.foldl_nil]
  norm_num [goTuple, round3, pyRound]

/-- Evaluation of the aggregator on the healthy Python day. -/
lemma get_summary_rawPyOk :
    get_summary_for_platform rawPyOk = .ok pyTuple := by
  simp only [get_summary_for_platform, rawPyOk, okRec,
    aggStep, initAggState, List.foldl_cons, List.foldl_nil]
  norm_num [pyTuple, round3, pyRound]

/-! ## Claims -/

/-- C1: the claim says that on a day whose records all have
`connection_success = false`, `get_summary_for_platform` raises no division
error and reports `apiFailureRate = 0`, `connectionFailureRate = 1.0`,
`avgConnectionLatencyMs = 0`.  The code has no divide-by-zero guard: with
every connection failed, `total_board_calls = 0` and line 80's
`round(board_api_failures / total_board_calls)` raises `ZeroDivisionError`,
so the function returns nothing at all. -/
theorem C1_all_failures_day_raises_zero_division :
    get_summary_for_platform [connFailureRec, connFailureRec, connFailureRec] =
      .error .zeroDivision := by
  decide

/-- C2: the claim says the session handle is closed on every exit path of
the OTA update.  On the verification-mismatch path the code posts and
raises before ever reaching line 80's `viam_client.close()`: the run ends
in an error with `closed = false`. -/
theorem C2_verification_mismatch_skips_close :
    (otaMain envMismatch).closed = false ∧
    (otaMain envMismatch).outcome =
      .error (.slackWrapped "ota service config does not reflect update") := by
  decide

/-- C3: the claim says every 20-iteration probe run persists one record
with `apiSuccesses + apiFailures = 20`, including the run in which every
iteration fails.  The loop itself does catch and count all 20 failures,
but when every iteration fails before a latency is recorded,
`latencies_ms` is empty and line 89's
`sum(latencies_ms) / len(latencies_ms)` raises `ZeroDivisionError`, so
`insert_one` (line 95) is never reached and nothing is persisted. -/
theorem C3_all_fail_run_not_persisted :
    probeRun (List.replicate 20 .failNoLatency) = .error .zeroDivision ∧
    (probeLoop (List.replicate 20 .failNoLatency)).2.1 = 20 ∧
    (probeLoop (List.replicate 20 .failNoLatency)).1 = 0 := by
  decide

/-- C4: the claim says both reported rates are rounded to 3 decimal
digits.  Only the connection failure rate is; the board API failure rate
is computed with `round(...)` and no digit count (line 80), i.e. rounded
to the nearest integer.  On a day whose true board rate is 1/4 the code
reports 0, while 3-decimal rounding would report 0.25. -/
theorem C4_board_rate_rounded_to_integer :
    (get_summary_for_platform [quarterRec]).map (fun r => r.2.2.1) = .ok (0 : ℚ) ∧
    round3 (1/4) = 1/4 ∧ ((1 : ℚ)/4) ≠ 0 := by
  refine ⟨?_, ?_, by norm_num⟩
  · simp only [get_summary_for_platform, quarterRec, aggStep, initAggState,
      List.foldl_cons, List.foldl_nil]
    norm_num [pyRound]
    simp [Except.map]
  · norm_num [round3, pyRound]

/-- C5: for `maxAttempts = 5` and `k < 5`, when the dial fails exactly `k`
times and then succeeds, `connect` returns the session after exactly
`k + 1` dial attempts and sleeps exactly `k` times. -/
theorem C5_dial_fails_k_then_succeeds (dial : ℕ → Except String Unit)
    (e : ℕ → String) (k : ℕ) (hk : k < 5)
    (hfail : ∀ j, j < k → dial j = .error (e j))
    (hsucc : dial k = .ok ()) :
    connect dial = { result := .ok (), attempts := k + 1, sleeps := k } := by
  have h := connectAux_ok dial e k 0 5 0 hk
    (fun j hj => by simpa using hfail j hj) (by simpa using hsucc)
  simpa [connect] using h

/-- C5 witness: a dial that fails twice then succeeds gives success after
3 attempts and 2 sleeps. -/
theorem C5_witness :
    connect dialFailsTwice = { result := .ok (), attempts := 3, sleeps := 2 } :=
  C5_dial_fails_k_then_succeeds dialFailsTwice (fun _ => "dial failed") 2
    (by omega)
    (fun j hj => by simp [dialFailsTwice, hj])
    (by decide)

/-- C6: for `maxAttempts = 5`, when the dial fails on every attempt,
`connect` re-raises the error observed on the 5th attempt, after exactly
5 attempts (and 4 sleeps). -/
theorem C6_dial_always_fails_raises_last (dial : ℕ → Except String Unit)
    (e : ℕ → String) (hfail : ∀ j, j < 5 → dial j = .error (e j)) :
    connect dial = { result := .error (e 4), attempts := 5, sleeps := 4 } := by
  have h := connectAux_err dial e 5 0 0 (by omega)
    (fun j hj => by simpa using hfail j hj)
  simpa [connect] using h

/-- C6 witness: a dial failing on every attempt with a distinct error per
attempt makes `connect` raise the 5th attempt's error. -/
theorem C6_witness :
    connect dialAlwaysFails =
      { result := .error (dialErrs 4), attempts := 5, sleeps := 4 } :=
  C6_dial_always_fails_raises_last dialAlwaysFails dialErrs (fun _ _ => rfl)

/-- C7: when the fetched configuration has no service entry with the OTA
model tag, the update fails (the missing-entry message is raised through
the Slack post) and no configuration write is performed. -/
theorem C7_missing_ota_entry_fails_without_write (env : OtaEnv)
    (h : ∀ s ∈ env.services, s.model ≠ "ota_service") :
    (otaMain env).wrote = none ∧
    (otaMain env).outcome =
      .error (.slackWrapped "failed to find or update ota service config") := by
  unfold otaMain
  rw [updateFirstOta_not_found env.services env.url env.tag_name h]
  simp

/-- C7 witness: a configuration whose only service is an `"rtc"` entry. -/
theorem C7_witness :
    (otaMain envNoOta).wrote = none ∧
    (otaMain envNoOta).outcome =
      .error (.slackWrapped "failed to find or update ota service config") :=
  C7_missing_ota_entry_fails_without_write envNoOta (by decide)

/-- C9: when the re-fetched configuration contains no service entry with
the OTA model tag at all, the verification loop checks nothing, raises no
error, and the run closes the client and reports success. -/
theorem C9_no_ota_entry_in_refetch_reports_success (env : OtaEnv)
    (hfound : ∃ s ∈ env.services, s.model = "ota_service")
    (hre : ∀ s ∈ env.refetchedServices, s.model ≠ "ota_service")
    (hslack : env.slackOk = true) :
    (otaMain env).outcome = .ok () ∧ (otaMain env).closed = true := by
  unfold otaMain
  have hf := updateFirstOta_found env.services env.url env.tag_name hfound
  rcases hu : updateFirstOta env.services env.url env.tag_name with ⟨updated, found⟩
  rw [hu] at hf
  simp only at hf
  subst hf
  rw [findOtaMismatch_none env.refetchedServices env.url env.tag_name hre]
  simp [post_to_slack, hslack]

/-- C9 witness: the re-fetch sees only an `"rtc"` entry, and the run
reports success. -/
theorem C9_witness :
    (otaMain envOtaGone).outcome = .ok () ∧ (otaMain envOtaGone).closed = true :=
  C9_no_ota_entry_in_refetch_reports_success envOtaGone (by decide) (by decide) rfl

/-- C8: when both platforms' aggregations succeed, both summaries are
inserted no matter how the notifications go, and the run's final outcome
is success exactly when neither platform's notification call raised: a
notification failure for one platform never suppresses the aggregation,
persistence or alerting of the other, and is re-raised only after both
platforms have been attempted. -/
theorem C8_notification_failure_does_not_block_other_platform
    (rawGo rawPy : List RawRecord) (slackGo slackPy : Bool)
    (a b : Summary × ℚ × ℚ × String)
    (hGo : get_summary_for_platform rawGo = .ok a)
    (hPy : get_summary_for_platform rawPy = .ok b) :
    (dailyMain rawGo rawPy slackGo slackPy).inserted = [a.1, b.1] ∧
    ((dailyMain rawGo rawPy slackGo slackPy).outcome = .ok () ↔
      (post_to_slack_on_failure a.2.1 a.2.2.1 slackGo = .ok () ∧
       post_to_slack_on_failure b.2.1 b.2.2.1 slackPy = .ok ())) := by
  obtain ⟨sGo, frGo, bfrGo, vGo⟩ := a
  obtain ⟨sPy, frPy, bfrPy, vPy⟩ := b
  unfold dailyMain
  rw [hGo, hPy]
  cases hpg : post_to_slack_on_failure frGo bfrGo slackGo with
  | error eg =>
    cases hpp : post_to_slack_on_failure frPy bfrPy slackPy with
    | error ep => simp [hpg, hpp]
    | ok up => simp [hpg, hpp]
  | ok ug =>
    cases hpp : post_to_slack_on_failure frPy bfrPy slackPy with
    | error ep => simp [hpg, hpp]
    | ok up => simp [hpg, hpp]

/-- C8 witness: the Go day breaches the connection threshold (its alert
call raises), yet the Python day is still aggregated, inserted and
alerted, and the run fails only at the very end. -/
theorem C8_witness :
    (dailyMain rawGoBreach rawPyOk true true).inserted = [goTuple.1, pyTuple.1] ∧
    ((dailyMain rawGoBreach rawPyOk true true).outcome = .ok () ↔
      (post_to_slack_on_failure goTuple.2.1 goTuple.2.2.1 true = .ok () ∧
       post_to_slack_on_failure pyTuple.2.1 pyTuple.2.2.1 true = .ok ())) :=
  C8_notification_failure_does_not_block_other_platform rawGoBreach rawPyOk
    true true goTuple pyTuple get_summary_rawGoBreach get_summary_rawPyOk

/-- C10: in every summary the aggregator returns, the average connection
attempts sums `connection_attempts` only over the records whose connection
succeeded, but divides by the total number of records of the day. -/
theorem C10_avg_attempts_denominator_is_num_results
    (result_set : List RawRecord) (out : Summary × ℚ × ℚ × String)
    (h : get_summary_for_platform result_set = .ok out) :
    out.1.avg_connection_attempts =
      (((result_set.filter (fun r => r.connection_success)).map
          (fun r => r.connection_attempts)).sum : ℚ) / result_set.length := by
  unfold get_summary_for_platform at h
  by_cases h0 : (result_set.foldl aggStep initAggState).num_results = 0
  · rw [if_pos h0] at h
    exact absurd h (by simp)
  · rw [if_neg h0] at h
    by_cases ht : (result_set.foldl aggStep initAggState).board_api_successes
        + (result_set.foldl aggStep initAggState).board_api_failures = 0
    · rw [if_pos ht] at h
      exact absurd h (by simp)
    · rw [if_neg ht] at h
      have h' := Except.ok.inj h
      rw [← h']
      simp only
      rw [foldl_aggStep_connection_attempts result_set initAggState,
        foldl_aggStep_num_results result_set initAggState]
      simp [initAggState, Function.comp_def]

/-- C10 witness: on the two-record day one record's connection failed;
its 5 attempts are excluded from the numerator while the record itself
still counts in the denominator, giving 1/2. -/
theorem C10_witness :
    goTuple.1.avg_connection_attempts =
      (((rawGoBreach.filter (fun r => r.connection_success)).map
          (fun r => r.connection_attempts)).sum : ℚ) / rawGoBreach.length :=
  C10_avg_attempts_denominator_is_num_results rawGoBreach goTuple
    get_summary_rawGoBreach

end Canary
